import Mathlib

/-
Verification of the Flappy Bird game-loop core (src/flappy.py).

The simulation core is embedded shallowly: Python ints become ℤ/ℕ, Python
floats (bird y, vertical velocity, rotation, fall-angle accumulator) are
modelled as exact rationals ℚ, `randint` is modelled by an arbitrary
integer stream clamped into the requested range, and the per-tick
`Game.update` mutation is explicit state passing on a `GameS` record.
Sprite-derived pixel sizes (bird width/height, floor height) are not in the
source text, so they are kept as symbolic fields/parameters; the pipe
sprite width is the source constant PIPE_THICKNESS, which the source itself
uses interchangeably with the image width in `Pipe.offscreen`.
-/

namespace Flappy

/-- Screen width in pixels (source constant WIDTH = 576). -/
def WIDTH : ℤ := 576

/-- Screen height in pixels (source constant HEIGHT = 1024). -/
def HEIGHT : ℤ := 1024

/-- Gravity added to the vertical velocity each tick (source literal 0.3,
modelled as the exact rational 3/10). -/
def GRAVITY : ℚ := 3 / 10

/-- Magnitude of the upward flap impulse (source constant FLAP_POWER = 6). -/
def FLAP_POWER : ℚ := 6

/-- Per-tick increment of the fall-angle accumulator (source literal 0.05,
modelled as the exact rational 1/20). -/
def ROTATION_SPEED : ℚ := 1 / 20

/-- Pipe sprite thickness in pixels (source constant PIPE_THICKNESS = 104). -/
def PIPE_THICKNESS : ℤ := 104

/-- Horizontal pipe scroll speed per tick (source constant PIPE_SPEED = 4). -/
def PIPE_SPEED : ℤ := 4

/-- Horizontal floor scroll speed per tick (source constant FLOOR_SPEED = 4). -/
def FLOOR_SPEED : ℤ := 4

/-- State of the bird sprite: fixed column x, float position and kinematics,
sprite size, and the has-the-first-flap-happened flag. -/
structure BirdS where
  x : ℤ
  y : ℚ
  width : ℤ
  height : ℤ
  vely : ℚ
  started : Bool
  degree : ℚ
  rotation : ℚ
deriving DecidableEq, Repr

/-- State of one pipe pair: horizontal position, sprite width, and the
gap-start offset randomized once at creation. -/
structure PipeS where
  x : ℤ
  width : ℤ
  gap_start : ℤ
deriving DecidableEq, Repr

/-- State of the floor sprite: horizontal position and sprite height. -/
structure FloorS where
  x : ℤ
  height : ℤ
deriving DecidableEq, Repr

/-- Whole-world game state held by the Game singleton. -/
structure GameS where
  score : ℕ
  game_over : Bool
  bird : BirdS
  pipes : List PipeS
  floor : FloorS
deriving DecidableEq, Repr

/-- Bird.motion: velocity gains GRAVITY, y gains the new velocity, the
fall-angle accumulator gains ROTATION_SPEED, and rotation decreases by the
new accumulator value whenever the current rotation is at least -90. -/
def birdMotion (b : BirdS) : BirdS :=
  let vely := b.vely + GRAVITY
  let y := b.y + vely
  let degree := b.degree + ROTATION_SPEED
  let rotation := if -90 ≤ b.rotation then b.rotation - degree else b.rotation
  { b with vely := vely, y := y, degree := degree, rotation := rotation }

/-- Bird.flap: velocity set to -FLAP_POWER, rotation to 20, accumulator to 0. -/
def birdFlap (b : BirdS) : BirdS :=
  { b with vely := -FLAP_POWER, rotation := 20, degree := 0 }

/-- FlapCommand.execute: marks the bird as started, then applies Bird.flap. -/
def flapCommand (b : BirdS) : BirdS :=
  birdFlap { b with started := true }

/-- Bird.collision: floor/ceiling bound check, or the bird's right edge lies
strictly inside the pipe's horizontal span while the bird's vertical extent is
not fully inside the gap interval.  `gap` is the global PIPE_GAP constant,
passed explicitly because the difficulty argument mutates it. -/
def birdCollision (b : BirdS) (fl : FloorS) (p : PipeS) (gap : ℤ) : Bool :=
  (decide (b.y < 0) || decide (b.y > (HEIGHT : ℚ) - (fl.height : ℚ) - (b.height : ℚ)))
  || ((decide (p.x < b.x + b.width) && decide (b.x + b.width < p.x + p.width))
      && (decide (b.y < (p.gap_start : ℚ))
          || decide (b.y + (b.height : ℚ) > (p.gap_start : ℚ) + (gap : ℚ))))

/-- Floor.motion: scroll left by FLOOR_SPEED. -/
def floorMotion (fl : FloorS) : FloorS :=
  { fl with x := fl.x - FLOOR_SPEED }

/-- Floor.offscreen: the floor has scrolled a full screen width to the left. -/
def floorOffscreen (fl : FloorS) : Bool :=
  decide (fl.x < -WIDTH)

/-- Pipe.motion: scroll left by PIPE_SPEED. -/
def pipeMotion (p : PipeS) : PipeS :=
  { p with x := p.x - PIPE_SPEED }

/-- Pipe.offscreen: the pipe's right edge has passed the left screen edge. -/
def pipeOffscreen (p : PipeS) : Bool :=
  decide (p.x + PIPE_THICKNESS < 0)

/-- Python randint(lo, hi): both bounds inclusive.  The raw stream value `r`
is clamped into the range by a Euclidean remainder, so every value of the
range is reachable and nothing outside it ever is. -/
def randint (lo hi : ℤ) (r : ℤ) : ℤ :=
  lo + r % (hi - lo + 1)

/-- Gap-start offset drawn at pipe creation:
randint(50, HEIGHT - PIPE_GAP - 224 - 50). -/
def pipeGapStart (gap : ℤ) (r : ℤ) : ℤ :=
  randint 50 (HEIGHT - gap - 224 - 50) r

/-- Pipe created by PipeFactory.get_flyweight: position x, sprite width
PIPE_THICKNESS, freshly randomized gap-start. -/
def newPipe (x gap : ℤ) (r : ℤ) : PipeS :=
  { x := x, width := PIPE_THICKNESS, gap_start := pipeGapStart gap r }

/-- Bird.__init__ at a given position: zero velocity, not started, zero
accumulator and rotation; sprite size passed symbolically. -/
def mkBird (x : ℤ) (y : ℚ) (bw bh : ℤ) : BirdS :=
  { x := x, y := y, width := bw, height := bh,
    vely := 0, started := false, degree := 0, rotation := 0 }

/-- The bird's fixed spawn column, WIDTH // 20. -/
def birdStartX : ℤ := WIDTH / 20

/-- The bird as constructed in Game.__init__: x = WIDTH // 20, y = HEIGHT // 2. -/
def initBird (bw bh : ℤ) : BirdS :=
  mkBird birdStartX ((HEIGHT / 2 : ℤ) : ℚ) bw bh

/-- The floor as constructed in Game.__init__: x = 0; the base sprite is 224
pixels tall, matching its y placement at HEIGHT - 224. -/
def initFloor : FloorS :=
  { x := 0, height := 224 }

/-- Game.__init__: score 0, not over, bird at spawn, two pipes at
WIDTH + WIDTH // 2 and WIDTH + WIDTH // 2 + 340, floor at 0.  The two
initial pipes consume stream values 0 and 1, so the running stream counter
starts at 2. -/
def initGame (rand : ℕ → ℤ) (gap bw bh : ℤ) : GameS × ℕ :=
  ({ score := 0, game_over := false, bird := initBird bw bh,
     pipes := [newPipe (WIDTH + WIDTH / 2) gap (rand 0),
               newPipe (WIDTH + WIDTH / 2 + 340) gap (rand 1)],
     floor := initFloor }, 2)

/-- Result of the per-pipe scan inside Game.update: the pipe list after the
loop, the pipes collected for removal, the number of score increments fired,
and whether a collision ended the round. -/
structure TickScan where
  pipes : List PipeS
  toRemove : List PipeS
  inc : ℕ
  over : Bool
deriving DecidableEq, Repr

/-- The for-loop of Game.update.  Each pipe first moves; a collision sets the
game-over flag and breaks out (later pipes stay unmoved and are not scanned);
otherwise the off-screen check queues the pipe for removal and the
center-equals-bird-x check fires the score observer. -/
def processPipes (b : BirdS) (fl : FloorS) (gap : ℤ) : List PipeS → TickScan
  | [] => { pipes := [], toRemove := [], inc := 0, over := false }
  | p :: rest =>
    let p1 := pipeMotion p
    if birdCollision b fl p1 gap then
      { pipes := p1 :: rest, toRemove := [], inc := 0, over := true }
    else
      let s := processPipes b fl gap rest
      { pipes := p1 :: s.pipes,
        toRemove := (if pipeOffscreen p1 then [p1] else []) ++ s.toRemove,
        inc := (if p1.x + PIPE_THICKNESS / 2 = b.x then 1 else 0) + s.inc,
        over := s.over }

/-- The removal loop of Game.update: each queued pipe is removed from the
live list (first occurrence, as Python list.remove does) and one fresh pipe
is appended at x = WIDTH with a newly drawn gap-start. -/
def recyclePipes (rand : ℕ → ℤ) (gap : ℤ) :
    List PipeS → List PipeS → ℕ → List PipeS × ℕ
  | [], ps, ctr => (ps, ctr)
  | p :: rest, ps, ctr =>
      recyclePipes rand gap rest
        (ps.erase p ++ [newPipe WIDTH gap (rand ctr)]) (ctr + 1)

/-- The floor reset at the top of Game.update: x snaps back to 0 once the
floor is fully off-screen. -/
def floorReset (fl : FloorS) : FloorS :=
  if floorOffscreen fl then { fl with x := 0 } else fl

/-- Game.update.  Returns immediately when the round is already over;
otherwise resets the floor if needed, scans the pipes (motion, collision,
removal queueing, scoring), recycles the queued pipes, and finally applies
bird and floor motion — note that the final motions run even on the tick
whose scan just set the game-over flag. -/
def update (rand : ℕ → ℤ) (gap : ℤ) (g : GameS) (ctr : ℕ) : GameS × ℕ :=
  if g.game_over then (g, ctr)
  else
    let fl0 := floorReset g.floor
    let s := processPipes g.bird fl0 gap g.pipes
    let r := recyclePipes rand gap s.toRemove s.pipes ctr
    ({ score := g.score + s.inc, game_over := s.over,
       bird := birdMotion g.bird, pipes := r.1, floor := floorMotion fl0 }, r.2)

/-- One simulation step on the paired game state and random-stream counter. -/
def stepGame (rand : ℕ → ℤ) (gap : ℤ) (p : GameS × ℕ) : GameS × ℕ :=
  update rand gap p.1 p.2

/-- n simulated ticks from the initial world. -/
def runGame (rand : ℕ → ℤ) (gap bw bh : ℤ) (n : ℕ) : GameS × ℕ :=
  (stepGame rand gap)^[n] (initGame rand gap bw bh)

/-- The per-frame guard of the main loop: Game.update is invoked only once
the bird has started (the first flap has been issued). -/
def mainTick (rand : ℕ → ℤ) (gap : ℤ) (p : GameS × ℕ) : GameS × ℕ :=
  if p.1.bird.started then stepGame rand gap p else p

/-- GameMemento: the snapshot of {score, game-over flag, bird (x, y), pipe
x positions, floor x} taken by GameOriginator.create_memento. -/
structure GameMemento where
  score : ℕ
  game_over : Bool
  bird_state : ℤ × ℚ
  pipe_states : List ℤ
  floor_state : ℤ
deriving DecidableEq, Repr

/-- GameOriginator.create_memento on the current game state. -/
def create_memento (g : GameS) : GameMemento :=
  { score := g.score, game_over := g.game_over,
    bird_state := (g.bird.x, g.bird.y),
    pipe_states := g.pipes.map (fun p => p.x),
    floor_state := g.floor.x }

/-- The pipe list rebuilt by restore_from_memento: one fresh pipe per
recorded x, each drawing a fresh gap-start from the stream. -/
def restorePipes (rand : ℕ → ℤ) (gap : ℤ) : List ℤ → ℕ → List PipeS × ℕ
  | [], ctr => ([], ctr)
  | x :: xs, ctr =>
    let s := restorePipes rand gap xs (ctr + 1)
    (newPipe x gap (rand ctr) :: s.1, s.2)

/-- GameOriginator.restore_from_memento: score and game-over flag are copied
from the memento, and the bird, pipes and floor are rebuilt from scratch at
the recorded positions (fresh Bird.__init__, fresh pipes, fresh floor). -/
def restore_from_memento (rand : ℕ → ℤ) (gap bw bh : ℤ)
    (m : GameMemento) (g : GameS) (ctr : ℕ) : GameS × ℕ :=
  let pr := restorePipes rand gap m.pipe_states ctr
  ({ g with
      score := m.score, game_over := m.game_over,
      bird := mkBird m.bird_state.1 m.bird_state.2 bw bh,
      pipes := pr.1,
      floor := { x := m.floor_state, height := 224 } }, pr.2)

/-- Horizontal position of a pipe after t post-spawn ticks of leftward
motion at PIPE_SPEED. -/
def pipeXAfter (x0 : ℤ) (t : ℕ) : ℤ :=
  x0 - PIPE_SPEED * t

/-- The scoring condition of Game.update at tick t of a pipe spawned at x0:
the pipe's horizontal center equals the bird's fixed column. -/
def scoringTick (x0 : ℤ) (t : ℕ) : Prop :=
  pipeXAfter x0 t + PIPE_THICKNESS / 2 = birdStartX

/-- The removal condition of Game.update at tick t of a pipe spawned at x0. -/
def pipeGoneAt (x0 : ℤ) (t : ℕ) : Prop :=
  pipeXAfter x0 t + PIPE_THICKNESS < 0

/-- A pipe spawned at x0 meets the scoring condition at exactly one tick of
its scrolled life, and at that tick it has not yet met the removal
condition at any earlier or equal tick. -/
def scoresExactlyOnce (x0 : ℤ) : Prop :=
  (∃! t : ℕ, scoringTick x0 t) ∧
  ∀ t : ℕ, scoringTick x0 t → 1 ≤ t ∧ ∀ s ≤ t, ¬ pipeGoneAt x0 s

/-- The collision rule exactly as the specification words it (for claim C2):
vertical bound crossing, or a genuine horizontal interval overlap combined
with the vertical extent not being contained in the gap. -/
def collisionSpecRule (b : BirdS) (fl : FloorS) (p : PipeS) (gap : ℤ) : Prop :=
  (b.y < 0 ∨ b.y + (b.height : ℚ) > (HEIGHT : ℚ) - (fl.height : ℚ))
  ∨ ((b.x < p.x + p.width ∧ p.x < b.x + b.width)
     ∧ ¬((p.gap_start : ℚ) ≤ b.y ∧ b.y + (b.height : ℚ) ≤ (p.gap_start : ℚ) + (gap : ℚ)))

example : birdStartX = 28 := by decide

example : PIPE_THICKNESS / 2 = 52 := by decide

/-! ### Free fall, flap, gap bounds, restore -/

/-- C6: with no flap issued and zero starting velocity, n ticks of
Bird.motion integrate gravity to velocity n * GRAVITY and displacement
GRAVITY * n * (n + 1) / 2. -/
theorem free_fall_closed_form (b : BirdS) (h : b.vely = 0) (n : ℕ) :
    (birdMotion^[n] b).vely = n * GRAVITY ∧
    (birdMotion^[n] b).y = b.y + GRAVITY * n * (n + 1) / 2 := by
  induction n with
  | zero => simp [h]
  | succ n ih =>
    obtain ⟨hv, hy⟩ := ih
    rw [Function.iterate_succ_apply']
    refine ⟨?_, ?_⟩
    · simp only [birdMotion, hv]
      push_cast
      ring
    · simp only [birdMotion, hv, hy]
      push_cast
      ring

/-- Witness for the free-fall closed form at n = 3. -/
theorem free_fall_closed_form_witness :
    (birdMotion^[3] (mkBird 28 512 68 48)).vely = 9 / 10 ∧
    (birdMotion^[3] (mkBird 28 512 68 48)).y = 2569 / 5 := by
  have h := free_fall_closed_form (mkBird 28 512 68 48) rfl 3
  refine ⟨?_, ?_⟩
  · rw [h.1]; norm_num [GRAVITY]
  · rw [h.2]; norm_num [GRAVITY, mkBird]

/-- C7: Bird.flap sets velocity to -FLAP_POWER, rotation to 20 and the
fall-angle accumulator to 0 regardless of the previous values, so flapping
twice in a row equals flapping once. -/
theorem flap_resets_state (b : BirdS) :
    (birdFlap b).vely = -FLAP_POWER ∧ (birdFlap b).rotation = 20 ∧
    (birdFlap b).degree = 0 ∧ birdFlap (birdFlap b) = birdFlap b :=
  ⟨rfl, rfl, rfl, rfl⟩

/-- C9: for every difficulty gap in {250, 200, 150}, every spawned pipe has
gap_start at least 50 and the whole gap ends at or above HEIGHT - 274, which
is strictly above the floor top edge HEIGHT - 224. -/
theorem gap_start_bounds (gap : ℤ)
    (hgap : gap = 250 ∨ gap = 200 ∨ gap = 150) (x r : ℤ) :
    50 ≤ (newPipe x gap r).gap_start ∧
    (newPipe x gap r).gap_start + gap ≤ HEIGHT - 274 ∧
    HEIGHT - 274 < HEIGHT - 224 := by
  have hM : (0 : ℤ) < 1024 - gap - 224 - 50 - 50 + 1 := by
    rcases hgap with rfl | rfl | rfl <;> norm_num
  have h0 : 0 ≤ r % (1024 - gap - 224 - 50 - 50 + 1) := Int.emod_nonneg r (by omega)
  have h1 : r % (1024 - gap - 224 - 50 - 50 + 1) < 1024 - gap - 224 - 50 - 50 + 1 :=
    Int.emod_lt_of_pos r hM
  simp only [newPipe, pipeGapStart, randint, HEIGHT]
  refine ⟨by omega, by omega, by norm_num⟩

/-- Witness for the gap bounds at gap = 250, raw stream value 7. -/
theorem gap_start_bounds_witness :
    50 ≤ (newPipe 576 250 7).gap_start ∧
    (newPipe 576 250 7).gap_start + 250 ≤ HEIGHT - 274 ∧
    HEIGHT - 274 < HEIGHT - 224 :=
  gap_start_bounds 250 (Or.inl rfl) 576 7

/-- The x positions of the pipes rebuilt by restore are exactly the
recorded ones, in order. -/
theorem restorePipes_map_x (rand : ℕ → ℤ) (gap : ℤ) :
    ∀ (xs : List ℤ) (ctr : ℕ),
      ((restorePipes rand gap xs ctr).1).map (fun p => p.x) = xs := by
  intro xs
  induction xs with
  | nil => intro ctr; rfl
  | cons x xs ih => intro ctr; simp [restorePipes, newPipe, ih]

/-- C8: restore_from_memento copies the captured score and game-over flag
and rebuilds bird, pipes and floor at exactly the recorded positions; the
snapshot taken at process start captures score 0 and game-over false. -/
theorem restore_from_memento_spec (rand : ℕ → ℤ) (gap bw bh : ℤ)
    (m : GameMemento) (g : GameS) (ctr : ℕ) :
    (restore_from_memento rand gap bw bh m g ctr).1.score = m.score ∧
    (restore_from_memento rand gap bw bh m g ctr).1.game_over = m.game_over ∧
    (restore_from_memento rand gap bw bh m g ctr).1.bird.x = m.bird_state.1 ∧
    (restore_from_memento rand gap bw bh m g ctr).1.bird.y = m.bird_state.2 ∧
    ((restore_from_memento rand gap bw bh m g ctr).1.pipes.map (fun p => p.x))
      = m.pipe_states ∧
    (restore_from_memento rand gap bw bh m g ctr).1.floor.x = m.floor_state ∧
    ∀ (r2 : ℕ → ℤ) (gap2 bw2 bh2 : ℤ),
      (create_memento (initGame r2 gap2 bw2 bh2).1).score = 0 ∧
      (create_memento (initGame r2 gap2 bw2 bh2).1).game_over = false :=
  ⟨rfl, rfl, rfl, rfl, restorePipes_map_x rand gap m.pipe_states ctr, rfl,
   fun _ _ _ _ => ⟨rfl, rfl⟩⟩

/-- C10: the bird rebuilt by restore_from_memento has zero velocity,
rotation and fall-angle accumulator and is not started, so the main loop
guard skips Game.update on the restored state until the next flap. -/
theorem restore_resets_bird_idle (rand : ℕ → ℤ) (gap bw bh : ℤ)
    (m : GameMemento) (g : GameS) (ctr : ℕ) :
    (restore_from_memento rand gap bw bh m g ctr).1.bird.vely = 0 ∧
    (restore_from_memento rand gap bw bh m g ctr).1.bird.rotation = 0 ∧
    (restore_from_memento rand gap bw bh m g ctr).1.bird.degree = 0 ∧
    (restore_from_memento rand gap bw bh m g ctr).1.bird.started = false ∧
    ∀ (rand2 : ℕ → ℤ) (gap2 : ℤ) (c : ℕ),
      mainTick rand2 gap2 ((restore_from_memento rand gap bw bh m g ctr).1, c)
        = ((restore_from_memento rand gap bw bh m g ctr).1, c) := by
  refine ⟨rfl, rfl, rfl, rfl, ?_⟩
  intro rand2 gap2 c
  simp [mainTick, restore_from_memento, mkBird]

/-! ### Game over freezes the update -/

/-- C4 (amended): once the game-over flag is set, every further Game.update
call, and hence every iterated tick, leaves the world state and the random
counter untouched. -/
theorem game_over_freezes_update (rand : ℕ → ℤ) (gap : ℤ) (g : GameS)
    (ctr : ℕ) (h : g.game_over = true) :
    update rand gap g ctr = (g, ctr) ∧
    ∀ n : ℕ, (stepGame rand gap)^[n] (g, ctr) = (g, ctr) := by
  have h1 : update rand gap g ctr = (g, ctr) := by simp [update, h]
  refine ⟨h1, ?_⟩
  intro n
  induction n with
  | zero => rfl
  | succ n ih =>
    rw [Function.iterate_succ_apply]
    simpa [stepGame, h1] using ih

/-- Concrete game state with the round already over, for the C4 witness. -/
def gOverEx : GameS :=
  { score := 3, game_over := true, bird := mkBird 28 512 68 48,
    pipes := [newPipe 864 250 0, newPipe 1204 250 0], floor := initFloor }

/-- Witness: with the flag set, one update and five iterated ticks are the
identity. -/
theorem game_over_freezes_update_witness :
    update (fun _ => 0) 250 gOverEx 0 = (gOverEx, 0) ∧
    (stepGame (fun _ => 0) 250)^[5] (gOverEx, 0) = (gOverEx, 0) :=
  ⟨(game_over_freezes_update (fun _ => 0) 250 gOverEx 0 rfl).1,
   (game_over_freezes_update (fun _ => 0) 250 gOverEx 0 rfl).2 5⟩

/-- Concrete pre-collision state: the bird is below the floor line, so the
first scanned pipe triggers the collision branch this tick. -/
def gCollideEx : GameS :=
  { score := 0, game_over := false,
    bird := { x := 28, y := 900, width := 68, height := 48, vely := 0,
              started := true, degree := 0, rotation := 0 },
    pipes := [{ x := 864, width := 104, gap_start := 300 },
              { x := 1204, width := 104, gap_start := 300 }],
    floor := { x := 0, height := 224 } }

/-- C4 counterexample: on the very tick that sets the game-over flag, the
remainder of the update still moves the bird, so the world is not frozen on
that tick. -/
theorem game_over_tick_motion_cex :
    (update (fun _ => 0) 250 gCollideEx 0).1.game_over = true ∧
    (update (fun _ => 0) 250 gCollideEx 0).1.bird.y ≠ gCollideEx.bird.y ∧
    (update (fun _ => 0) 250 gCollideEx 0).1.floor.x ≠ gCollideEx.floor.x := by
  norm_num [update, floorReset, floorOffscreen, processPipes, birdCollision,
    pipeMotion, pipeOffscreen, recyclePipes, birdMotion, floorMotion,
    gCollideEx, WIDTH, HEIGHT, PIPE_SPEED, PIPE_THICKNESS, FLOOR_SPEED,
    GRAVITY, ROTATION_SPEED]

/-! ### Rotation clamp -/

/-- Closed form of the free-fall rotation from the initial bird, valid up to
the tick on which the accumulated angle first crosses -90: rotation is
-(n * (n + 1)) / 40 and the accumulator is n / 20. -/
theorem rotation_free_fall_formula (bw bh : ℤ) :
    ∀ n : ℕ, n ≤ 60 →
      (birdMotion^[n] (initBird bw bh)).rotation = -((n : ℚ) * (n + 1) / 40) ∧
      (birdMotion^[n] (initBird bw bh)).degree = (n : ℚ) / 20 := by
  intro n
  induction n with
  | zero => intro _; simp [initBird, mkBird]
  | succ n ih =>
    intro h
    obtain ⟨hr, hd⟩ := ih (by omega)
    have h59 : (n : ℚ) ≤ 59 := by exact_mod_cast (by omega : n ≤ 59)
    have hn0 : (0 : ℚ) ≤ (n : ℚ) := Nat.cast_nonneg n
    have hcond : (-90 : ℚ) ≤ (birdMotion^[n] (initBird bw bh)).rotation := by
      rw [hr]; nlinarith
    rw [Function.iterate_succ_apply']
    refine ⟨?_, ?_⟩
    · simp only [birdMotion]
      rw [if_pos hcond, hr, hd, ROTATION_SPEED]
      push_cast
      ring
    · simp only [birdMotion]
      rw [hd, ROTATION_SPEED]
      push_cast
      ring

/-- C5 counterexample: starting from the initial bird and never flapping,
the 60th Bird.motion call leaves rotation strictly below -90 (it lands at
-91.5), so rotation does decrease past -90. -/
theorem rotation_cross_neg90_cex :
    (birdMotion^[60] (initBird 68 48)).rotation < -90 := by
  have h := (rotation_free_fall_formula 68 48 60 (le_refl 60)).1
  rw [h]
  norm_num

/-- C5 (amended): Bird.motion never moves a rotation that is already below
-90, and a rotation still at or above -90 drops by exactly the new
accumulator value, hence never below -90 minus that single increment. -/
theorem rotation_clamp_amended (b : BirdS) :
    (b.rotation < -90 → (birdMotion b).rotation = b.rotation) ∧
    (-90 ≤ b.rotation →
      -90 - (b.degree + ROTATION_SPEED) ≤ (birdMotion b).rotation ∧
      (birdMotion b).rotation = b.rotation - (b.degree + ROTATION_SPEED)) := by
  constructor
  · intro h
    simp only [birdMotion]
    rw [if_neg (by linarith)]
  · intro h
    simp only [birdMotion]
    rw [if_pos h]
    exact ⟨by linarith, rfl⟩

/-- Bird already past the clamp angle, for the C5 witness. -/
def bLowEx : BirdS :=
  { x := 28, y := 512, width := 68, height := 48, vely := 0,
    started := true, degree := 2, rotation := -100 }

/-- Bird above the clamp angle, for the C5 witness. -/
def bHighEx : BirdS :=
  { x := 28, y := 512, width := 68, height := 48, vely := 0,
    started := true, degree := 2, rotation := 0 }

/-- Witness for the amended clamp behavior on both sides of -90. -/
theorem rotation_clamp_amended_witness :
    (birdMotion bLowEx).rotation = bLowEx.rotation ∧
    -90 - (bHighEx.degree + ROTATION_SPEED) ≤ (birdMotion bHighEx).rotation :=
  ⟨(rotation_clamp_amended bLowEx).1 (by norm_num [bLowEx]),
   ((rotation_clamp_amended bHighEx).2 (by norm_num [bHighEx])).1⟩

/-! ### Collision detector -/

/-- C2 (amended): Bird.collision is true exactly when the bird has crossed
the top of the screen or the floor top edge, or its RIGHT EDGE lies strictly
inside the pipe's horizontal span while its vertical extent is not fully
contained in the gap interval.  The horizontal test is a right-edge
membership test, not a full interval-overlap test. -/
theorem collision_characterization (b : BirdS) (fl : FloorS) (p : PipeS) (gap : ℤ) :
    birdCollision b fl p gap = true ↔
      ((b.y < 0 ∨ b.y + (b.height : ℚ) > (HEIGHT : ℚ) - (fl.height : ℚ))
       ∨ ((p.x < b.x + b.width ∧ b.x + b.width < p.x + p.width)
          ∧ ¬((p.gap_start : ℚ) ≤ b.y
              ∧ b.y + (b.height : ℚ) ≤ (p.gap_start : ℚ) + (gap : ℚ)))) := by
  simp only [birdCollision, Bool.or_eq_true, Bool.and_eq_true, decide_eq_true_eq,
    not_and_or, not_le]
  constructor
  · rintro ((h | h) | ⟨⟨h1, h2⟩, h3⟩)
    · exact Or.inl (Or.inl h)
    · exact Or.inl (Or.inr (by linarith))
    · exact Or.inr ⟨⟨h1, h2⟩, h3⟩
  · rintro ((h | h) | ⟨⟨h1, h2⟩, h3⟩)
    · exact Or.inl (Or.inl h)
    · exact Or.inl (Or.inr (by linarith))
    · exact Or.inr ⟨⟨h1, h2⟩, h3⟩

/-- Bird for the C2 counterexample, hanging into the pipe from the left. -/
def bC2 : BirdS :=
  { x := 28, y := 300, width := 68, height := 48, vely := 0,
    started := true, degree := 0, rotation := 0 }

/-- Pipe for the C2 counterexample: its span [-40, 64] overlaps the bird's
span [28, 96], but the bird's right edge 96 is already past the pipe. -/
def pC2 : PipeS :=
  { x := -40, width := 104, gap_start := 600 }

/-- Floor for the C2 counterexample. -/
def flC2 : FloorS :=
  { x := 0, height := 224 }

/-- C2 counterexample: the horizontal extents overlap and the bird is
outside the gap, so the claimed rule demands a collision, yet Bird.collision
returns false because the bird's right edge has left the pipe's span. -/
theorem collision_horizontal_overlap_cex :
    birdCollision bC2 flC2 pC2 250 = false ∧ collisionSpecRule bC2 flC2 pC2 250 := by
  constructor
  · norm_num [birdCollision, bC2, flC2, pC2, HEIGHT]
  · norm_num [collisionSpecRule, bC2, flC2, pC2, HEIGHT]

/-! ### The live pipe count -/

open List

/-- The pipe-scan loop never changes the number of live pipes. -/
theorem processPipes_pipes_length (b : BirdS) (fl : FloorS) (gap : ℤ) :
    ∀ ps : List PipeS, (processPipes b fl gap ps).pipes.length = ps.length := by
  intro ps
  induction ps with
  | nil => rfl
  | cons p rest ih =>
    simp only [processPipes]
    split
    · simp
    · simp [ih]

/-- Every pipe queued for removal is one of the live pipes, in order. -/
theorem processPipes_toRemove_sublist (b : BirdS) (fl : FloorS) (gap : ℤ) :
    ∀ ps : List PipeS,
      (processPipes b fl gap ps).toRemove <+ (processPipes b fl gap ps).pipes := by
  intro ps
  induction ps with
  | nil => exact List.Sublist.refl _
  | cons p rest ih =>
    simp only [processPipes]
    split
    · exact List.nil_sublist _
    · split
      · exact List.Sublist.cons₂ _ ih
      · exact List.Sublist.cons _ ih

/-- Recycling replaces each removed pipe by exactly one fresh pipe, so the
live count is preserved whenever the removal queue really consists of live
pipes. -/
theorem recyclePipes_length (rand : ℕ → ℤ) (gap : ℤ) :
    ∀ (rem ps : List PipeS) (ctr : ℕ), rem <+ ps →
      (recyclePipes rand gap rem ps ctr).1.length = ps.length := by
  intro rem
  induction rem with
  | nil => intro ps ctr _; rfl
  | cons p rest ih =>
    intro ps ctr h
    have hp : p ∈ ps := h.subset (List.mem_cons_self p rest)
    have h1 : rest <+ ps.erase p := by
      have h2 := h.erase p
      rwa [List.erase_cons_head] at h2
    have h3 : rest <+ ps.erase p ++ [newPipe WIDTH gap (rand ctr)] :=
      h1.trans (List.sublist_append_left _ _)
    have h4 : 0 < ps.length := List.length_pos_of_mem hp
    simp only [recyclePipes]
    rw [ih _ (ctr + 1) h3]
    simp [List.length_erase_of_mem hp]
    omega

/-- One Game.update never changes the number of live pipes. -/
theorem update_pipes_length (rand : ℕ → ℤ) (gap : ℤ) (g : GameS) (ctr : ℕ) :
    (update rand gap g ctr).1.pipes.length = g.pipes.length := by
  by_cases h : g.game_over = true
  · simp [update, h]
  · simp only [update, if_neg h]
    rw [recyclePipes_length rand gap _ _ ctr
      (processPipes_toRemove_sublist g.bird (floorReset g.floor) gap g.pipes)]
    exact processPipes_pipes_length g.bird (floorReset g.floor) gap g.pipes

/-- C3: the World Recycler invariant.  Game.update preserves the live pipe
count (each off-screen pipe removed is replaced by exactly one fresh pipe at
x = WIDTH), and therefore any number of simulated ticks from the initial
world keeps exactly two live pipe pairs. -/
theorem pipe_count_invariant :
    (∀ (rand : ℕ → ℤ) (gap : ℤ) (g : GameS) (ctr : ℕ),
      (update rand gap g ctr).1.pipes.length = g.pipes.length) ∧
    ∀ (rand : ℕ → ℤ) (gap bw bh : ℤ) (n : ℕ),
      (runGame rand gap bw bh n).1.pipes.length = 2 := by
  refine ⟨update_pipes_length, ?_⟩
  intro rand gap bw bh n
  induction n with
  | zero => rfl
  | succ n ih =>
    have h1 := update_pipes_length rand gap (runGame rand gap bw bh n).1
      (runGame rand gap bw bh n).2
    have h2 : runGame rand gap bw bh (n + 1)
        = stepGame rand gap (runGame rand gap bw bh n) := by
      simp [runGame, Function.iterate_succ_apply']
    rw [h2, stepGame]
    exact h1.trans ih

/-! ### Exactly-once scoring -/

/-- The bird's spawn column evaluates to 28. -/
theorem birdStartX_eq : birdStartX = 28 := by decide

/-- Half the pipe thickness evaluates to 52. -/
theorem half_thickness : PIPE_THICKNESS / 2 = 52 := by decide

/-- PIPE_SPEED unfolded, for linear arithmetic. -/
theorem PIPE_SPEED_eq : PIPE_SPEED = 4 := rfl

/-- PIPE_THICKNESS unfolded, for linear arithmetic. -/
theorem PIPE_THICKNESS_eq : PIPE_THICKNESS = 104 := rfl

/-- Under no collision, the scan increments the score once for each live
pipe whose post-motion center sits exactly on the bird's column. -/
theorem processPipes_inc (b : BirdS) (fl : FloorS) (gap : ℤ) :
    ∀ ps : List PipeS,
      (∀ p ∈ ps, birdCollision b fl (pipeMotion p) gap = false) →
      (processPipes b fl gap ps).inc
        = (ps.map pipeMotion).countP
            (fun p => decide (p.x + PIPE_THICKNESS / 2 = b.x)) := by
  intro ps
  induction ps with
  | nil => intro _; rfl
  | cons p rest ih =>
    intro h
    have hp := h p (List.mem_cons_self p rest)
    simp only [processPipes, hp, Bool.false_eq_true, if_false]
    rw [ih (fun q hq => h q (List.mem_cons_of_mem p hq))]
    simp only [List.map_cons, List.countP_cons, decide_eq_true_eq]
    split
    · omega
    · omega

/-- Any spawn column that is a nonnegative multiple of 4 meets the scoring
condition at exactly one tick, strictly before it ever meets the removal
condition. -/
theorem scoresExactlyOnce_of (x0 : ℤ) (h4 : x0 % 4 = 0) (h0 : 0 ≤ x0) :
    scoresExactlyOnce x0 := by
  simp only [scoresExactlyOnce, scoringTick, pipeGoneAt, pipeXAfter,
    half_thickness, birdStartX_eq, PIPE_SPEED_eq, PIPE_THICKNESS_eq]
  refine ⟨⟨((x0 + 24) / 4).toNat, by omega, by intro y hy; omega⟩, ?_⟩
  intro t ht
  exact ⟨by omega, fun s hs => by omega⟩

/-- C1: per tick, with the round live and no collision, Game.update adds to
the score exactly the number of live pipes whose post-motion horizontal
center equals the bird's fixed column; and each of the three spawn columns
of the source (WIDTH + WIDTH // 2, WIDTH + WIDTH // 2 + 340 at startup, and
WIDTH on respawn) meets that center condition at exactly one tick of its
scrolled life, before it is ever removable — so each pair scores exactly
once, with no double count and no skip. -/
theorem score_exactly_once_per_pipe :
    (∀ (rand : ℕ → ℤ) (gap : ℤ) (g : GameS) (ctr : ℕ),
      g.game_over = false →
      (∀ p ∈ g.pipes,
        birdCollision g.bird (floorReset g.floor) (pipeMotion p) gap = false) →
      (update rand gap g ctr).1.score
        = g.score + (g.pipes.map pipeMotion).countP
            (fun p => decide (p.x + PIPE_THICKNESS / 2 = g.bird.x))) ∧
    scoresExactlyOnce (WIDTH + WIDTH / 2) ∧
    scoresExactlyOnce (WIDTH + WIDTH / 2 + 340) ∧
    scoresExactlyOnce WIDTH := by
  refine ⟨?_, scoresExactlyOnce_of _ (by decide) (by decide),
    scoresExactlyOnce_of _ (by decide) (by decide),
    scoresExactlyOnce_of _ (by decide) (by decide)⟩
  intro rand gap g ctr h0 hnc
  simp only [update, h0, Bool.false_eq_true, if_false]
  rw [processPipes_inc g.bird (floorReset g.floor) gap g.pipes hnc]

/-- Concrete live state one tick before a scoring coincidence: the first
pipe moves to x = -24, whose center -24 + 52 is the bird column 28. -/
def gScoreEx : GameS :=
  { score := 0, game_over := false,
    bird := { x := 28, y := 400, width := 68, height := 48, vely := 0,
              started := true, degree := 0, rotation := 0 },
    pipes := [{ x := -20, width := 104, gap_start := 300 },
              { x := 500, width := 104, gap_start := 300 }],
    floor := { x := 0, height := 224 } }

/-- Witness: the per-tick scoring rule fires exactly once on gScoreEx. -/
theorem score_exactly_once_per_pipe_witness :
    (update (fun _ => 0) 250 gScoreEx 0).1.score = 1 := by
  have hnc : ∀ p ∈ gScoreEx.pipes,
      birdCollision gScoreEx.bird (floorReset gScoreEx.floor) (pipeMotion p) 250
        = false := by
    intro p hp
    fin_cases hp <;>
      norm_num [birdCollision, pipeMotion, gScoreEx, floorReset, floorOffscreen,
        WIDTH, HEIGHT, PIPE_SPEED]
  have h := score_exactly_once_per_pipe.1 (fun _ => 0) 250 gScoreEx 0 rfl hnc
  rw [h]
  decide

end Flappy
